import Mathlib

/-
Verification of the Refresh-Probe script (src/test-refresh.py).

The script reads /tmp/response.json, parses it as JSON, extracts the
nested field data.tokens.refreshToken, prints a truncated preview, runs
curl to POST the token to a fixed local endpoint, and prints the raw
response body.  The embedding below models the JSON documents the Python
json module produces, the exact dict-subscript semantics used on line 8,
the json.dumps serialization of the one-field request payload, the curl
argument vector built on lines 12-17, and the ordered observable effects
(stdout print statements and the single process execution).
-/

namespace RefreshProbe

/-- JSON values, as produced by json.load.  Numbers are abstracted to
integers: no claim inspects a numeric payload (any non-string token value
other than a list raises a TypeError before the value is used). -/
inductive Json where
  | null
  | bool (b : Bool)
  | num (n : Int)
  | str (s : String)
  | arr (elems : List Json)
  | obj (fields : List (String × Json))

/-- The Python exception classes the script can die with: OSError from
open on line 5, json.JSONDecodeError from json.load on line 6, KeyError
or TypeError from the subscripts on line 8. -/
inductive PyError where
  | osError
  | jsonDecodeError
  | keyError
  | typeError
  deriving DecidableEq

/-- Python subscript v[k] with a string key: on a dict it is a key lookup
(KeyError when the key is absent); on any other value it raises a
TypeError.  Dicts built by json.load have distinct keys, so first-match
lookup agrees with Python dict lookup. -/
def getKey (v : Json) (k : String) : Except PyError Json :=
  match v with
  | Json.obj fields =>
    match fields.find? (fun p => p.1 == k) with
    | some p => Except.ok p.2
    | none => Except.error PyError.keyError
  | _ => Except.error PyError.typeError

/-- Line 8 of the script: data["data"]["tokens"]["refreshToken"]. -/
def extractToken (doc : Json) : Except PyError Json :=
  Except.bind (getKey doc "data") (fun d =>
    Except.bind (getKey d "tokens") (fun ts => getKey ts "refreshToken"))

/-- Lowercase hexadecimal digit, as produced by the %04x formatting that
json.dumps uses for \u escapes. -/
def hexDigitChar (n : Nat) : Char :=
  if n < 10 then Char.ofNat (48 + n) else Char.ofNat (87 + n)

/-- Four lowercase hex digits of a code unit below 0x10000. -/
def hex4 (n : Nat) : List Char :=
  [hexDigitChar (n / 4096 % 16), hexDigitChar (n / 256 % 16),
   hexDigitChar (n / 16 % 16), hexDigitChar (n % 16)]

/-- The escaping json.dumps (default ensure_ascii=True) applies to one
character of a string: quote and backslash get two-character escapes,
printable ASCII passes through, the five short control escapes apply,
every other character becomes \uXXXX, with a UTF-16 surrogate pair for
code points above 0xFFFF. -/
def escapeChar (c : Char) : List Char :=
  if c = '"' then ['\\', '"']
  else if c = '\\' then ['\\', '\\']
  else if 0x20 ≤ c.toNat ∧ c.toNat ≤ 0x7e then [c]
  else if c = '\x08' then ['\\', 'b']
  else if c = '\x09' then ['\\', 't']
  else if c = '\x0a' then ['\\', 'n']
  else if c = '\x0c' then ['\\', 'f']
  else if c = '\x0d' then ['\\', 'r']
  else if c.toNat < 0x10000 then '\\' :: 'u' :: hex4 c.toNat
  else
    '\\' :: 'u' :: hex4 (0xd800 + (c.toNat - 0x10000) / 0x400) ++
      ('\\' :: 'u' :: hex4 (0xdc00 + (c.toNat - 0x10000) % 0x400))

/-- Escaping applied to every character of a string body. -/
def escapeList : List Char → List Char
  | [] => []
  | c :: cs => escapeChar c ++ escapeList cs

/-- A JSON string literal as json.dumps writes it. -/
def jstring (s : List Char) : List Char :=
  '"' :: escapeList s ++ ['"']

/-- Character list of json.dumps applied to the one-field dict built on
line 17; the default separators put ": " between key and value. -/
def dumpsBodyList (t : String) : List Char :=
  '{' :: jstring "refreshToken".data ++ ':' :: ' ' :: jstring t.data ++ ['}']

/-- The request body string passed after -d on the curl command line. -/
def dumpsBody (t : String) : String :=
  String.mk (dumpsBodyList t)

/-- State of the JSON string-literal scanner: plain scanning, after a
backslash, inside the four hex digits of a \u escape (with an optional
pending high surrogate), or between a decoded high surrogate and the \u
of the required low surrogate. -/
inductive SState where
  | normal
  | esc
  | hexState (pendingHigh : Option Nat) (val : Nat) (cnt : Nat)
  | highSlash (hi : Nat)
  | highU (hi : Nat)
  deriving DecidableEq

/-- Numeric value of a hexadecimal digit character. -/
def hexVal (c : Char) : Option Nat :=
  if 48 ≤ c.toNat ∧ c.toNat ≤ 57 then some (c.toNat - 48)
  else if 97 ≤ c.toNat ∧ c.toNat ≤ 102 then some (c.toNat - 87)
  else if 65 ≤ c.toNat ∧ c.toNat ≤ 70 then some (c.toNat - 55)
  else none

/-- Completion of a \uXXXX escape whose four digits evaluate to n.  With
no pending high surrogate: a high surrogate waits for its partner, a lone
low surrogate is rejected, anything else is a scalar value.  With a
pending high surrogate, n must be a low surrogate and the pair combines
to one code point. -/
def endHex : Option Nat → Nat → Option (SState × List Char)
  | none, n =>
    if 0xd800 ≤ n ∧ n ≤ 0xdbff then some (SState.highSlash n, [])
    else if 0xdc00 ≤ n ∧ n ≤ 0xdfff then none
    else some (SState.normal, [Char.ofNat n])
  | some hi, n =>
    if 0xdc00 ≤ n ∧ n ≤ 0xdfff then
      some (SState.normal, [Char.ofNat (0x10000 + (hi - 0xd800) * 0x400 + (n - 0xdc00))])
    else none

/-- One transition of the string-literal scanner on an input character,
returning the next state and the characters decoded by this step. -/
def step : SState → Char → Option (SState × List Char)
  | SState.normal, c =>
    if c = '\\' then some (SState.esc, []) else some (SState.normal, [c])
  | SState.esc, c =>
    if c = '"' then some (SState.normal, ['"'])
    else if c = '\\' then some (SState.normal, ['\\'])
    else if c = '/' then some (SState.normal, ['/'])
    else if c = 'b' then some (SState.normal, ['\x08'])
    else if c = 'f' then some (SState.normal, ['\x0c'])
    else if c = 'n' then some (SState.normal, ['\x0a'])
    else if c = 'r' then some (SState.normal, ['\x0d'])
    else if c = 't' then some (SState.normal, ['\x09'])
    else if c = 'u' then some (SState.hexState none 0 0, [])
    else none
  | SState.hexState ph val cnt, c =>
    match hexVal c with
    | none => none
    | some v =>
      if cnt = 3 then endHex ph (16 * val + v)
      else some (SState.hexState ph (16 * val + v) (cnt + 1), [])
  | SState.highSlash hi, c => if c = '\\' then some (SState.highU hi, []) else none
  | SState.highU hi, c => if c = 'u' then some (SState.hexState (some hi) 0 0, []) else none

/-- Scanner for the body of a JSON string literal: consumes characters up
to and including the closing unescaped quote, returning the decoded
characters and the unconsumed remainder. -/
def runStr : SState → List Char → Option (List Char × List Char)
  | _, [] => none
  | st, c :: rest =>
    if st = SState.normal ∧ c = '"' then some ([], rest)
    else
      match step st c with
      | some (st2, out) => Option.map (fun p => (out ++ p.1, p.2)) (runStr st2 rest)
      | none => none

/-- JSON insignificant whitespace. -/
def skipWs : List Char → List Char
  | [] => []
  | c :: rest =>
    if c = ' ' ∨ c = '\x09' ∨ c = '\x0a' ∨ c = '\x0d' then skipWs rest
    else c :: rest

/-- Consume one expected character. -/
def expectChar (c : Char) : List Char → Option (List Char)
  | [] => none
  | x :: r => if x = c then some r else none

/-- Parse a JSON string literal starting at its opening quote. -/
def parseJStr (l : List Char) : Option (List Char × List Char) :=
  Option.bind (expectChar '"' l) (runStr SState.normal)

/-- JSON parser for a one-field object whose single value is a string:
the shape the claim compares the request body against. -/
def parseTokenObj (s : String) : Option Json :=
  Option.bind (expectChar '{' (skipWs s.data)) (fun r1 =>
  Option.bind (parseJStr (skipWs r1)) (fun kr =>
  Option.bind (expectChar ':' (skipWs kr.2)) (fun r3 =>
  Option.bind (parseJStr (skipWs r3)) (fun vr =>
  Option.bind (expectChar '}' (skipWs vr.2)) (fun r5 =>
  if skipWs r5 = [] then
    some (Json.obj [(String.mk kr.1, Json.str (String.mk vr.1))])
  else none)))))

/-- An observable effect of the script: a print statement writing one
line to stdout, or the execution of the curl child process. -/
inductive Effect where
  | printLine (s : String)
  | exec (argv : List String)
  deriving DecidableEq

/-- Outcome of the curl child process as observed through
subprocess.run(capture_output=True, text=True). -/
structure NetResult where
  exitCode : Nat
  stdout : String
  stderr : String

/-- Termination of the script process.  listTokenUnmodelled marks the one
branch left out of the model: a refreshToken value that is a JSON array
is sliceable in Python, so the script would print the list and POST its
serialization; no claim concerns a non-string token, and the branch is
recorded abstractly rather than given a fake behaviour. -/
inductive Outcome where
  | ok
  | uncaught (e : PyError)
  | listTokenUnmodelled
  deriving DecidableEq

/-- A run of the script: its ordered observable effects and how the
process ends. -/
structure RunResult where
  effects : List Effect
  outcome : Outcome

/-- Result of lines 5-6: the file may be missing or unreadable (open
raises OSError), readable but not valid JSON (json.load raises
JSONDecodeError), or parsed into a document. -/
inductive FileResult where
  | missing
  | invalid
  | parsed (doc : Json)

/-- The fixed endpoint on line 14. -/
def refreshUrl : String := "http://localhost:3001/api/auth/refresh"

/-- The argument vector passed to subprocess.run on lines 12-17. -/
def curlArgv (t : String) : List String :=
  ["curl", "-s", "-X", "POST", refreshUrl,
   "-H", "Content-Type: application/json", "-d", dumpsBody t]

/-- The preview line printed on line 9: the f-string interpolates the
slice refresh_token[:50], which takes at most the first 50 characters. -/
def preview (t : String) : String :=
  "Refresh token: " ++ String.mk (t.data.take 50) ++ "..."

/-- Exit status of the process: 0 on normal completion, 1 when an
uncaught exception terminates the interpreter. -/
def exitStatus : Outcome → Option Nat
  | Outcome.ok => some 0
  | Outcome.uncaught _ => some 1
  | Outcome.listTokenUnmodelled => none

/-- The whole script, line by line, as a function of the input-file
outcome and of the environment answering the curl execution.  On the
happy path the effects are: the preview print (line 9), the curl
execution (lines 12-17), the header print (line 19) and the response
print (line 20).  subprocess.run is called without check=True, so the
exit code of curl is ignored and the script still completes normally. -/
def script (file : FileResult) (net : List String → NetResult) : RunResult :=
  match file with
  | FileResult.missing => ⟨[], Outcome.uncaught PyError.osError⟩
  | FileResult.invalid => ⟨[], Outcome.uncaught PyError.jsonDecodeError⟩
  | FileResult.parsed doc =>
    match extractToken doc with
    | Except.error e => ⟨[], Outcome.uncaught e⟩
    | Except.ok (Json.str t) =>
      ⟨[Effect.printLine (preview t), Effect.exec (curlArgv t),
        Effect.printLine "\nRefresh response:",
        Effect.printLine (net (curlArgv t)).stdout],
       Outcome.ok⟩
    | Except.ok (Json.arr _) => ⟨[], Outcome.listTokenUnmodelled⟩
    | Except.ok _ => ⟨[], Outcome.uncaught PyError.typeError⟩

/-- The exec effects of a run, in order. -/
def execArgs : Effect → Option (List String)
  | Effect.exec a => some a
  | _ => none

/-- The print effects of a run, in order. -/
def printedLine : Effect → Option String
  | Effect.printLine s => some s
  | _ => none

/-- All argument vectors executed during a run. -/
def execsOf (r : RunResult) : List (List String) :=
  r.effects.filterMap execArgs

/-- Everything written to stdout during a run, one print per entry. -/
def printsOf (r : RunResult) : List String :=
  r.effects.filterMap printedLine

/-- The argument following the first "-d" flag of an argument vector. -/
def argAfterD : List String → Option String
  | [] => none
  | a :: rest => if a = "-d" then rest.head? else argAfterD rest

/-- The example input document of the spec:
data.tokens.refreshToken = "abc123". -/
def doc0 : Json :=
  Json.obj [("data", Json.obj [("tokens",
    Json.obj [("refreshToken", Json.str "abc123")])])]

/-- The example document with an unrelated extra field. -/
def doc0ExtraField : Json :=
  Json.obj [("data", Json.obj [("tokens",
    Json.obj [("refreshToken", Json.str "abc123"), ("expiresIn", Json.num 3600)])]),
    ("success", Json.bool true)]

/-- A token of 55 characters. -/
def tokLong : String := "0123456789012345678901234567890123456789012345678901234"

/-- A document whose token is 55 characters long. -/
def docLong : Json :=
  Json.obj [("data", Json.obj [("tokens",
    Json.obj [("refreshToken", Json.str tokLong)])])]

/-- A document that lacks the nested keys entirely. -/
def docEmptyObj : Json := Json.obj []

/-- An environment in which the service answers. -/
def netOk : List String → NetResult := fun _ => ⟨0, "ok-response", ""⟩

/-- An environment in which the connection is refused: curl exits with
code 7 and writes nothing to stdout. -/
def netRefused : List String → NetResult :=
  fun _ => ⟨7, "", "curl: (7) Failed to connect to localhost port 3001: Connection refused"⟩

theorem hexVal_hexDigitChar (d : Nat) (hd : d < 16) :
    hexVal (hexDigitChar d) = some d := by
  interval_cases d <;> decide

theorem charValid (c : Char) :
    c.toNat < 0xd800 ∨ 0xe000 ≤ c.toNat ∧ c.toNat < 0x110000 := c.valid

theorem runStr_quote (l : List Char) :
    runStr SState.normal ('"' :: l) = some ([], l) := rfl

theorem runStr_cons (st : SState) (c : Char) (l : List Char)
    (h : ¬(st = SState.normal ∧ c = '"')) :
    runStr st (c :: l) =
      match step st c with
      | some (st2, out) => Option.map (fun p => (out ++ p.1, p.2)) (runStr st2 l)
      | none => none := by
  simp only [runStr, if_neg h]

theorem runStr_cons_step (st : SState) (c : Char) (l : List Char)
    (st2 : SState) (out : List Char)
    (h : ¬(st = SState.normal ∧ c = '"'))
    (hs : step st c = some (st2, out)) :
    runStr st (c :: l) = Option.map (fun p => (out ++ p.1, p.2)) (runStr st2 l) := by
  rw [runStr_cons st c l h, hs]

theorem runStr_hexStep (ph : Option Nat) (v cnt : Nat) (hcnt : cnt ≠ 3)
    (d : Nat) (hd : d < 16) (l : List Char) :
    runStr (SState.hexState ph v cnt) (hexDigitChar d :: l) =
      runStr (SState.hexState ph (16 * v + d) (cnt + 1)) l := by
  rw [runStr_cons _ _ _ (by simp)]
  simp [step, hexVal_hexDigitChar d hd, hcnt]

theorem runStr_hexLast (ph : Option Nat) (v : Nat) (d : Nat) (hd : d < 16) (l : List Char) :
    runStr (SState.hexState ph v 3) (hexDigitChar d :: l) =
      match endHex ph (16 * v + d) with
      | some (st2, out) => Option.map (fun p => (out ++ p.1, p.2)) (runStr st2 l)
      | none => none := by
  rw [runStr_cons _ _ _ (by simp)]
  simp [step, hexVal_hexDigitChar d hd]

theorem runStr_hex4 (ph : Option Nat) (n : Nat) (hn : n < 65536) (l : List Char) :
    runStr (SState.hexState ph 0 0) (hex4 n ++ l) =
      match endHex ph n with
      | some (st2, out) => Option.map (fun p => (out ++ p.1, p.2)) (runStr st2 l)
      | none => none := by
  have h1 : n / 4096 % 16 < 16 := Nat.mod_lt _ (by norm_num)
  have h2 : n / 256 % 16 < 16 := Nat.mod_lt _ (by norm_num)
  have h3 : n / 16 % 16 < 16 := Nat.mod_lt _ (by norm_num)
  have h4 : n % 16 < 16 := Nat.mod_lt _ (by norm_num)
  rw [hex4]
  simp only [List.cons_append, List.nil_append]
  rw [runStr_hexStep ph 0 0 (by decide) _ h1, runStr_hexStep _ _ _ (by decide) _ h2,
      runStr_hexStep _ _ _ (by decide) _ h3, runStr_hexLast _ _ _ h4]
  have harith :
      16 * (16 * (16 * (16 * 0 + n / 4096 % 16) + n / 256 % 16) + n / 16 % 16) + n % 16 = n := by
    omega
  rw [harith]

theorem runStr_escapeChar (c : Char) (l : List Char) :
    runStr SState.normal (escapeChar c ++ l) =
      Option.map (fun p => (c :: p.1, p.2)) (runStr SState.normal l) := by
  have hval := charValid c
  unfold escapeChar
  split_ifs with hq hb hp h8 h9 h10 h12 h13 hbmp
  · subst hq
    rw [List.cons_append, List.cons_append,
        runStr_cons_step SState.normal '\\' _ _ _ (by decide) rfl,
        runStr_cons_step SState.esc '"' _ _ _ (by decide) rfl]
    rcases hR : runStr SState.normal l with _ | ⟨s, r⟩ <;> simp [hR]
  · subst hb
    rw [List.cons_append, List.cons_append,
        runStr_cons_step SState.normal '\\' _ _ _ (by decide) rfl,
        runStr_cons_step SState.esc '\\' _ _ _ (by decide) rfl]
    rcases hR : runStr SState.normal l with _ | ⟨s, r⟩ <;> simp [hR]
  · rw [List.cons_append, List.nil_append,
        runStr_cons_step SState.normal c _ _ _ (fun h => hq h.2)
          (by simp only [step]; rw [if_neg hb])]
    rcases hR : runStr SState.normal l with _ | ⟨s, r⟩ <;> simp [hR]
  · subst h8
    rw [List.cons_append, List.cons_append,
        runStr_cons_step SState.normal '\\' _ _ _ (by decide) rfl,
        runStr_cons_step SState.esc 'b' _ _ _ (by decide) rfl]
    rcases hR : runStr SState.normal l with _ | ⟨s, r⟩ <;> simp [hR]
  · subst h9
    rw [List.cons_append, List.cons_append,
        runStr_cons_step SState.normal '\\' _ _ _ (by decide) rfl,
        runStr_cons_step SState.esc 't' _ _ _ (by decide) rfl]
    rcases hR : runStr SState.normal l with _ | ⟨s, r⟩ <;> simp [hR]
  · subst h10
    rw [List.cons_append, List.cons_append,
        runStr_cons_step SState.normal '\\' _ _ _ (by decide) rfl,
        runStr_cons_step SState.esc 'n' _ _ _ (by decide) rfl]
    rcases hR : runStr SState.normal l with _ | ⟨s, r⟩ <;> simp [hR]
  · subst h12
    rw [List.cons_append, List.cons_append,
        runStr_cons_step SState.normal '\\' _ _ _ (by decide) rfl,
        runStr_cons_step SState.esc 'f' _ _ _ (by decide) rfl]
    rcases hR : runStr SState.normal l with _ | ⟨s, r⟩ <;> simp [hR]
  · subst h13
    rw [List.cons_append, List.cons_append,
        runStr_cons_step SState.normal '\\' _ _ _ (by decide) rfl,
        runStr_cons_step SState.esc 'r' _ _ _ (by decide) rfl]
    rcases hR : runStr SState.normal l with _ | ⟨s, r⟩ <;> simp [hR]
  · -- single \uXXXX escape for a BMP scalar value outside the other cases
    have hs1 : ¬(0xd800 ≤ c.toNat ∧ c.toNat ≤ 0xdbff) := by omega
    have hs2 : ¬(0xdc00 ≤ c.toNat ∧ c.toNat ≤ 0xdfff) := by omega
    simp only [List.cons_append]
    rw [runStr_cons_step SState.normal '\\' _ _ _ (by decide) rfl,
        runStr_cons_step SState.esc 'u' _ _ _ (by decide) rfl,
        runStr_hex4 none c.toNat hbmp]
    have hend : endHex none c.toNat = some (SState.normal, [Char.ofNat c.toNat]) := by
      simp only [endHex]
      rw [if_neg hs1, if_neg hs2]
    simp only [hend]
    rcases hR : runStr SState.normal l with _ | ⟨s, r⟩ <;> simp [hR, Char.ofNat_toNat]
  · -- surrogate pair for a code point above 0xFFFF
    have hge : 0x10000 ≤ c.toNat := by omega
    have hlt : c.toNat < 0x110000 := by omega
    have hhi : (c.toNat - 0x10000) / 0x400 ≤ 0x3ff := by omega
    have hlo : (c.toNat - 0x10000) % 0x400 ≤ 0x3ff := by
      have := Nat.mod_lt (c.toNat - 0x10000) (show 0 < 0x400 by norm_num)
      omega
    simp only [List.cons_append, List.append_assoc]
    rw [runStr_cons_step SState.normal '\\' _ _ _ (by decide) rfl,
        runStr_cons_step SState.esc 'u' _ _ _ (by decide) rfl,
        runStr_hex4 none _ (by omega)]
    have hend1 : endHex none (0xd800 + (c.toNat - 0x10000) / 0x400) =
        some (SState.highSlash (0xd800 + (c.toNat - 0x10000) / 0x400), []) := by
      simp only [endHex]
      rw [if_pos (by omega)]
    simp only [hend1, List.cons_append]
    rw [runStr_cons_step (SState.highSlash _) '\\' _ _ _ (by simp) rfl,
        runStr_cons_step (SState.highU _) 'u' _ _ _ (by simp) rfl,
        runStr_hex4 (some _) _ (by omega)]
    have hend2 : endHex (some (0xd800 + (c.toNat - 0x10000) / 0x400))
        (0xdc00 + (c.toNat - 0x10000) % 0x400) =
        some (SState.normal, [Char.ofNat c.toNat]) := by
      have harg : 0x10000 + (0xd800 + (c.toNat - 0x10000) / 0x400 - 0xd800) * 0x400 +
          (0xdc00 + (c.toNat - 0x10000) % 0x400 - 0xdc00) = c.toNat := by omega
      simp only [endHex]
      rw [if_pos (by omega), harg]
    simp only [hend2]
    rcases hR : runStr SState.normal l with _ | ⟨s, r⟩ <;> simp [hR, Char.ofNat_toNat]

theorem runStr_escapeList (s l : List Char) :
    runStr SState.normal (escapeList s ++ ('"' :: l)) = some (s, l) := by
  induction s with
  | nil => rw [escapeList, List.nil_append, runStr_quote]
  | cons c cs ih =>
    rw [escapeList, List.append_assoc, runStr_escapeChar, ih]
    rfl

theorem parseTokenObj_dumpsBody (t : String) :
    parseTokenObj (dumpsBody t) = some (Json.obj [("refreshToken", Json.str t)]) := by
  have e1 : expectChar '{' (skipWs (dumpsBody t).data) =
      some (jstring "refreshToken".data ++ (':' :: ' ' :: (jstring t.data ++ ['}']))) := rfl
  have e2 : parseJStr (skipWs (jstring "refreshToken".data ++
        (':' :: ' ' :: (jstring t.data ++ ['}'])))) =
      some ("refreshToken".data, ':' :: ' ' :: (jstring t.data ++ ['}'])) := by
    show Option.bind (expectChar '"' (skipWs (jstring "refreshToken".data ++
        (':' :: ' ' :: (jstring t.data ++ ['}']))))) (runStr SState.normal) = _
    have hx : expectChar '"' (skipWs (jstring "refreshToken".data ++
        (':' :: ' ' :: (jstring t.data ++ ['}'])))) =
        some (escapeList "refreshToken".data ++
          ('"' :: (':' :: ' ' :: (jstring t.data ++ ['}'])))) := by
      show expectChar '"' (skipWs (('"' :: escapeList "refreshToken".data ++ ['"']) ++
        (':' :: ' ' :: (jstring t.data ++ ['}'])))) = _
      simp [expectChar, skipWs, List.append_assoc]
    rw [hx, Option.some_bind, runStr_escapeList]
  have e3 : expectChar ':' (skipWs (':' :: ' ' :: (jstring t.data ++ ['}']))) =
      some (' ' :: (jstring t.data ++ ['}'])) := rfl
  have e4 : parseJStr (skipWs (' ' :: (jstring t.data ++ ['}']))) =
      some (t.data, ['}']) := by
    show Option.bind (expectChar '"' (skipWs (' ' :: (jstring t.data ++ ['}']))))
      (runStr SState.normal) = _
    have hx : expectChar '"' (skipWs (' ' :: (jstring t.data ++ ['}']))) =
        some (escapeList t.data ++ ('"' :: ['}'])) := by
      show expectChar '"' (skipWs (' ' :: (('"' :: escapeList t.data ++ ['"']) ++ ['}']))) = _
      simp [expectChar, skipWs, List.append_assoc]
    rw [hx, Option.some_bind, runStr_escapeList]
  show Option.bind (expectChar '{' (skipWs (dumpsBody t).data)) _ = _
  rw [e1, Option.some_bind, e2, Option.some_bind, e3, Option.some_bind, e4, Option.some_bind]
  rfl

theorem scriptRun_ok (doc : Json) (net : List String → NetResult) (t : String)
    (h : extractToken doc = Except.ok (Json.str t)) :
    script (FileResult.parsed doc) net =
      ⟨[Effect.printLine (preview t), Effect.exec (curlArgv t),
        Effect.printLine "\nRefresh response:",
        Effect.printLine (net (curlArgv t)).stdout],
       Outcome.ok⟩ := by
  simp only [script]
  rw [h]

theorem scriptRun_error (doc : Json) (net : List String → NetResult) (e : PyError)
    (h : extractToken doc = Except.error e) :
    script (FileResult.parsed doc) net = ⟨[], Outcome.uncaught e⟩ := by
  simp only [script]
  rw [h]

theorem getKey_error_kind (v : Json) (k : String) (e : PyError)
    (h : getKey v k = Except.error e) :
    e = PyError.keyError ∨ e = PyError.typeError := by
  cases v
  case obj fields =>
    simp only [getKey] at h
    rcases hf : fields.find? (fun p => p.1 == k) with _ | p
    · rw [hf] at h
      injection h with h2
      exact Or.inl h2.symm
    · rw [hf] at h
      cases h
  all_goals
    have h2 : (Except.error PyError.typeError : Except PyError Json) = Except.error e := h
  all_goals
    injection h2 with h3
  all_goals
    exact Or.inr h3.symm

theorem extractToken_error_kind (doc : Json) (e : PyError)
    (h : extractToken doc = Except.error e) :
    e = PyError.keyError ∨ e = PyError.typeError := by
  unfold extractToken at h
  rcases h1 : getKey doc "data" with e1 | d
  · rw [h1] at h
    simp only [Except.bind] at h
    injection h with h2
    exact h2 ▸ getKey_error_kind _ _ _ h1
  · rw [h1] at h
    simp only [Except.bind] at h
    rcases h2 : getKey d "tokens" with e2 | ts
    · rw [h2] at h
      simp only [Except.bind] at h
      injection h with h3
      exact h3 ▸ getKey_error_kind _ _ _ h2
    · rw [h2] at h
      simp only [Except.bind] at h
      exact getKey_error_kind _ _ _ h

/-- Claim C1: for every input document holding the string token t at
data.tokens.refreshToken, the run executes exactly one command, the
argument after its -d flag is the request body, and that body, parsed as
JSON, is exactly the one-field object mapping refreshToken to t. -/
theorem c1_request_body_parses_to_token_object (doc : Json)
    (net : List String → NetResult) (t : String)
    (h : extractToken doc = Except.ok (Json.str t)) :
    ∃ argv body,
      execsOf (script (FileResult.parsed doc) net) = [argv] ∧
      argAfterD argv = some body ∧
      parseTokenObj body = some (Json.obj [("refreshToken", Json.str t)]) := by
  refine ⟨curlArgv t, dumpsBody t, ?_, rfl, parseTokenObj_dumpsBody t⟩
  rw [execsOf, scriptRun_ok doc net t h]
  rfl

theorem c1_witness :
    extractToken doc0 = Except.ok (Json.str "abc123") ∧
    (∃ argv body,
      execsOf (script (FileResult.parsed doc0) netOk) = [argv] ∧
      argAfterD argv = some body ∧
      parseTokenObj body = some (Json.obj [("refreshToken", Json.str "abc123")])) :=
  ⟨rfl, c1_request_body_parses_to_token_object doc0 netOk "abc123" rfl⟩

/-- Claim C2, counterexample: with a well-formed input file, a failing
HTTP request (curl exits 7 with empty stdout, as on connection refused)
does not make the script exit non-zero: the exit status is 0. -/
theorem c2_cex_network_failure_exit_zero :
    exitStatus (script (FileResult.parsed doc0) netRefused).outcome = some 0 := rfl

/-- Claim C2, amended: a missing file, malformed JSON, or a failed key
lookup each terminate the process with a non-zero status; but a failure
of the network call does not: subprocess.run is not asked to check the
curl exit status, so the script completes normally with status 0. -/
theorem c2_amended_error_propagation :
    (∀ net, exitStatus (script FileResult.missing net).outcome = some 1) ∧
    (∀ net, exitStatus (script FileResult.invalid net).outcome = some 1) ∧
    (∀ doc net e, extractToken doc = Except.error e →
      exitStatus (script (FileResult.parsed doc) net).outcome = some 1) ∧
    (∀ doc net t, extractToken doc = Except.ok (Json.str t) →
      exitStatus (script (FileResult.parsed doc) net).outcome = some 0) := by
  refine ⟨fun net => rfl, fun net => rfl, ?_, ?_⟩
  · intro doc net e h
    rw [scriptRun_error doc net e h]
    rfl
  · intro doc net t h
    rw [scriptRun_ok doc net t h]
    rfl

theorem c2_amended_witness :
    exitStatus (script (FileResult.parsed docEmptyObj) netOk).outcome = some 1 ∧
    exitStatus (script (FileResult.parsed doc0) netRefused).outcome = some 0 :=
  ⟨c2_amended_error_propagation.2.2.1 docEmptyObj netOk PyError.keyError rfl,
   c2_amended_error_propagation.2.2.2 doc0 netRefused "abc123" rfl⟩

/-- Claim C3: for a token of length at least 50, the first effect of
the run prints the preview line: the fixed prefix, then exactly the
first 50 characters of the token, then the ellipsis. -/
theorem c3_preview_long_token (doc : Json) (net : List String → NetResult)
    (t : String) (h : extractToken doc = Except.ok (Json.str t))
    (hlen : 50 ≤ t.data.length) :
    ∃ rest, (script (FileResult.parsed doc) net).effects =
        Effect.printLine ("Refresh token: " ++ String.mk (t.data.take 50) ++ "...") :: rest ∧
      (t.data.take 50).length = 50 ∧
      t.data.take 50 ++ t.data.drop 50 = t.data := by
  refine ⟨[Effect.exec (curlArgv t), Effect.printLine "\nRefresh response:",
      Effect.printLine (net (curlArgv t)).stdout], ?_, ?_, List.take_append_drop 50 t.data⟩
  · rw [scriptRun_ok doc net t h]
    rfl
  · rw [List.length_take]
    omega

theorem c3_witness :
    extractToken docLong = Except.ok (Json.str tokLong) ∧ 50 ≤ tokLong.data.length ∧
    (∃ rest, (script (FileResult.parsed docLong) netOk).effects =
        Effect.printLine ("Refresh token: " ++ String.mk (tokLong.data.take 50) ++ "...") :: rest ∧
      (tokLong.data.take 50).length = 50 ∧
      tokLong.data.take 50 ++ tokLong.data.drop 50 = tokLong.data) :=
  ⟨rfl, by decide, c3_preview_long_token docLong netOk tokLong rfl (by decide)⟩

/-- Claim C4: for a token shorter than 50 characters the slice clamps:
the first effect prints the fixed prefix, the whole token, and the
ellipsis, and no error occurs. -/
theorem c4_preview_short_token (doc : Json) (net : List String → NetResult)
    (t : String) (h : extractToken doc = Except.ok (Json.str t))
    (hlen : t.data.length < 50) :
    ∃ rest, (script (FileResult.parsed doc) net).effects =
      Effect.printLine ("Refresh token: " ++ t ++ "...") :: rest := by
  refine ⟨[Effect.exec (curlArgv t), Effect.printLine "\nRefresh response:",
      Effect.printLine (net (curlArgv t)).stdout], ?_⟩
  rw [scriptRun_ok doc net t h]
  have ht : t.data.take 50 = t.data := List.take_of_length_le (le_of_lt hlen)
  show Effect.printLine (preview t) :: _ = _
  rw [preview, ht]

theorem c4_witness :
    extractToken doc0 = Except.ok (Json.str "abc123") ∧
    ("abc123" : String).data.length < 50 ∧
    (∃ rest, (script (FileResult.parsed doc0) netOk).effects =
      Effect.printLine ("Refresh token: " ++ "abc123" ++ "...") :: rest) :=
  ⟨rfl, by decide, c4_preview_short_token doc0 netOk "abc123" rfl (by decide)⟩

/-- Claim C5: when the input file is missing or unreadable the run has
no effects at all: nothing is executed, nothing is printed, and the
process dies with the uncaught OSError from open. -/
theorem c5_missing_file_no_network (net : List String → NetResult) :
    execsOf (script FileResult.missing net) = [] ∧
    (script FileResult.missing net).effects = [] ∧
    (script FileResult.missing net).outcome = Outcome.uncaught PyError.osError :=
  ⟨rfl, rfl, rfl⟩

/-- Claim C6: when the input file holds invalid JSON the run has no
effects: nothing is executed, nothing is printed, and the process dies
with the uncaught JSONDecodeError from json.load. -/
theorem c6_invalid_json_no_network (net : List String → NetResult) :
    execsOf (script FileResult.invalid net) = [] ∧
    (script FileResult.invalid net).effects = [] ∧
    (script FileResult.invalid net).outcome = Outcome.uncaught PyError.jsonDecodeError :=
  ⟨rfl, rfl, rfl⟩

/-- Claim C7: when the nested path data.tokens.refreshToken is absent,
the run has no effects (no preview print, no network call) and the
process dies with the uncaught error of the key-lookup expression, which
is a KeyError, or a TypeError when an intermediate value is not an
object. -/
theorem c7_missing_keys_no_output_no_network (doc : Json)
    (net : List String → NetResult) (e : PyError)
    (h : extractToken doc = Except.error e) :
    (script (FileResult.parsed doc) net).effects = [] ∧
    (script (FileResult.parsed doc) net).outcome = Outcome.uncaught e ∧
    (e = PyError.keyError ∨ e = PyError.typeError) := by
  refine ⟨?_, ?_, extractToken_error_kind doc e h⟩ <;>
    rw [scriptRun_error doc net e h]

theorem c7_witness :
    extractToken docEmptyObj = Except.error PyError.keyError ∧
    ((script (FileResult.parsed docEmptyObj) netOk).effects = [] ∧
     (script (FileResult.parsed docEmptyObj) netOk).outcome =
        Outcome.uncaught PyError.keyError ∧
     (PyError.keyError = PyError.keyError ∨ PyError.keyError = PyError.typeError)) :=
  ⟨rfl, c7_missing_keys_no_output_no_network docEmptyObj netOk PyError.keyError rfl⟩

/-- Claim C8: a successful run executes exactly one command, and it is
the curl invocation of a POST to the fixed URL with the JSON
content-type header and the serialized body after -d. -/
theorem c8_single_post_request (doc : Json) (net : List String → NetResult)
    (t : String) (h : extractToken doc = Except.ok (Json.str t)) :
    execsOf (script (FileResult.parsed doc) net) =
      [["curl", "-s", "-X", "POST", "http://localhost:3001/api/auth/refresh",
        "-H", "Content-Type: application/json", "-d", dumpsBody t]] := by
  rw [execsOf, scriptRun_ok doc net t h]
  rfl

theorem c8_witness :
    extractToken doc0 = Except.ok (Json.str "abc123") ∧
    execsOf (script (FileResult.parsed doc0) netOk) =
      [["curl", "-s", "-X", "POST", "http://localhost:3001/api/auth/refresh",
        "-H", "Content-Type: application/json", "-d", dumpsBody "abc123"]] :=
  ⟨rfl, c8_single_post_request doc0 netOk "abc123" rfl⟩

/-- Claim C9, counterexample: on the example document, standard output
is not the two print statements the claim describes (preview then raw
response body): a third print, the header line, sits between them. -/
theorem c9_cex_three_prints :
    printsOf (script (FileResult.parsed doc0) netOk) ≠
      [preview "abc123", (netOk (curlArgv "abc123")).stdout] := by
  decide

/-- Claim C9, amended: on a successful run, standard output consists of
exactly three print statements: the truncated token preview, then the
fixed header line (a newline followed by the text Refresh response:),
then the raw response body unparsed, and nothing else. -/
theorem c9_amended_three_prints (doc : Json) (net : List String → NetResult)
    (t : String) (h : extractToken doc = Except.ok (Json.str t)) :
    printsOf (script (FileResult.parsed doc) net) =
      [preview t, "\nRefresh response:", (net (curlArgv t)).stdout] := by
  rw [printsOf, scriptRun_ok doc net t h]
  rfl

theorem c9_amended_witness :
    extractToken doc0 = Except.ok (Json.str "abc123") ∧
    printsOf (script (FileResult.parsed doc0) netOk) =
      [preview "abc123", "\nRefresh response:", (netOk (curlArgv "abc123")).stdout] :=
  ⟨rfl, c9_amended_three_prints doc0 netOk "abc123" rfl⟩

/-- Claim C10: two input documents that agree on the string token at
data.tokens.refreshToken produce identical runs in every environment:
the same prints, the same single request, the same outcome; every other
field of the document is ignored. -/
theorem c10_noninterference (d1 d2 : Json) (net : List String → NetResult)
    (t : String)
    (h1 : extractToken d1 = Except.ok (Json.str t))
    (h2 : extractToken d2 = Except.ok (Json.str t)) :
    script (FileResult.parsed d1) net = script (FileResult.parsed d2) net := by
  rw [scriptRun_ok d1 net t h1, scriptRun_ok d2 net t h2]

theorem c10_witness :
    extractToken doc0 = Except.ok (Json.str "abc123") ∧
    extractToken doc0ExtraField = Except.ok (Json.str "abc123") ∧
    script (FileResult.parsed doc0) netOk = script (FileResult.parsed doc0ExtraField) netOk :=
  ⟨rfl, rfl, c10_noninterference doc0 doc0ExtraField netOk "abc123" rfl rfl⟩

/-- Claim C5 witness instantiation in a concrete environment. -/
theorem c5_witness :
    execsOf (script FileResult.missing netOk) = [] ∧
    (script FileResult.missing netOk).effects = [] ∧
    (script FileResult.missing netOk).outcome = Outcome.uncaught PyError.osError :=
  c5_missing_file_no_network netOk

/-- Claim C6 witness instantiation in a concrete environment. -/
theorem c6_witness :
    execsOf (script FileResult.invalid netOk) = [] ∧
    (script FileResult.invalid netOk).effects = [] ∧
    (script FileResult.invalid netOk).outcome = Outcome.uncaught PyError.jsonDecodeError :=
  c6_invalid_json_no_network netOk

end RefreshProbe
